import Mathlib

/-!
Shallow embedding of the MicoJoystick driver core (c.MicoJoy in the
repository sources).  All driver variables are C `unsigned int` machine
words: they always hold values in [0, 2^32).  Arithmetic that can wrap in
C is written with explicit wrap-around helpers (sub32, add32, mul32);
subtractions performed under a branch guard that makes them wrap-free in C
are written with truncated Nat subtraction, which coincides with the C
result there.  Hardware accesses (game port byte, IOC timer) are modelled
as explicit inputs: a list of samples for the acquisition loop, and
measurement records for the averaging routine get_av_stick_pos, whose
outputs depend only on the hardware samples it collects.
-/

/-- 2^32, the modulus of C unsigned int arithmetic on this platform. -/
def U32 : ℕ := 4294967296

/-- UINT_MAX, used by read_joystick as the sentinel for a missing reading. -/
def UINT_MAX : ℕ := 4294967295

/-- C unsigned subtraction: (a - b) mod 2^32. -/
def sub32 (a b : ℕ) : ℕ := (a % U32 + (U32 - b % U32)) % U32

/-- C unsigned addition: (a + b) mod 2^32. -/
def add32 (a b : ℕ) : ℕ := (a + b) % U32

/-- C unsigned multiplication: (a * b) mod 2^32. -/
def mul32 (a b : ℕ) : ℕ := (a * b) % U32

/-- Per stick-and-axis calibration values established by calibration:
the arrays x_min, x_max, x_ctr, x_ctr_deadz, x_end_deadz, x_smooth
(and their y_ counterparts) of the source, gathered per axis. -/
structure AxisCal where
  min : ℕ
  max : ℕ
  ctr : ℕ
  ctr_deadz : ℕ
  end_deadz : ℕ
  smooth : ℕ
deriving DecidableEq

/-- Values used in the actual conversion to 8-bit / 16-bit position:
the arrays x_ctr_low, x_ctr_high, x_low_scaler, x_high_scaler
(and their y_ counterparts) of the source, gathered per axis. -/
structure AxisCoef where
  ctr_low : ℕ
  ctr_high : ℕ
  low_scaler : ℕ
  high_scaler : ℕ
deriving DecidableEq

/-- SCALER_FRAC_SHIFT of the source. -/
def SCALER_FRAC_SHIFT : ℕ := 14

/-- The dividend 32768 << SCALER_FRAC_SHIFT used by recalc_coefficients. -/
def scaler_dividend : ℕ := 32768 <<< SCALER_FRAC_SHIFT

/-- The divisor of the low scaler computed by recalc_coefficients:
x_ctr_low - (x_min + x_end_dz), with the dead zones zeroed when globally
disabled.  All operations are unsigned 32-bit. -/
def low_divisor (ctr_zones end_zones : Bool) (cal : AxisCal) : ℕ :=
  sub32 (sub32 cal.ctr (if ctr_zones then cal.ctr_deadz else 0))
    (add32 cal.min (if end_zones then cal.end_deadz else 0))

/-- The divisor of the high scaler computed by recalc_coefficients:
(x_max - x_end_dz) - x_ctr_high. -/
def high_divisor (ctr_zones end_zones : Bool) (cal : AxisCal) : ℕ :=
  sub32 (sub32 cal.max (if end_zones then cal.end_deadz else 0))
    (add32 cal.ctr (if ctr_zones then cal.ctr_deadz else 0))

/-- One axis of recalc_coefficients (source lines 1003-1068): derives
ctr_low, ctr_high and the two scalers from the calibration values.
safedivide sets a quotient of 0 when the divisor word is 0, and performs
unsigned division otherwise. -/
def recalcAxis (ctr_zones end_zones : Bool) (cal : AxisCal) : AxisCoef :=
  let dz := if ctr_zones then cal.ctr_deadz else 0
  { ctr_low := sub32 cal.ctr dz
    ctr_high := add32 cal.ctr dz
    low_scaler :=
      if low_divisor ctr_zones end_zones cal ≠ 0 then
        scaler_dividend / low_divisor ctr_zones end_zones cal
      else 0
    high_scaler :=
      if high_divisor ctr_zones end_zones cal ≠ 0 then
        scaler_dividend / high_divisor ctr_zones end_zones cal
      else 0 }

/-- Final clamp of the 8-bit conversion in MicoJoy_swihandler:
if(x < -127) x = -127; else if(x > 127) x = 127. -/
def clamp8 (v : ℤ) : ℤ :=
  if v < -127 then -127 else if v > 127 then 127 else v

/-- Final clamp of the 16-bit conversion in MicoJoy_swihandler:
if(x < 0) x = 0; else if(x > 0xffff) x = 0xffff. -/
def clamp16 (v : ℤ) : ℤ :=
  if v < 0 then 0 else if v > 65535 then 65535 else v

/-- 8-bit X conversion of MicoJoy_swihandler (source lines 394-412).
The in-branch subtractions are wrap-free in C because of the guards;
the scaler product is a full unsigned 32-bit multiplication. -/
def convert8_x (c : AxisCoef) (raw : ℕ) : ℤ :=
  clamp8 (if raw > c.ctr_low then
            if raw < c.ctr_high then 0
            else ((mul32 c.high_scaler (raw - c.ctr_high) >>> (SCALER_FRAC_SHIFT + 8) : ℕ) : ℤ)
          else -((mul32 c.low_scaler (c.ctr_low - raw) >>> (SCALER_FRAC_SHIFT + 8) : ℕ) : ℤ))

/-- 8-bit Y conversion of MicoJoy_swihandler (source lines 414-435).
Note the sign of the off-centre offset is opposite to the X axis. -/
def convert8_y (c : AxisCoef) (raw : ℕ) : ℤ :=
  clamp8 (if raw > c.ctr_low then
            if raw < c.ctr_high then 0
            else -((mul32 c.high_scaler (raw - c.ctr_high) >>> (SCALER_FRAC_SHIFT + 8) : ℕ) : ℤ)
          else ((mul32 c.low_scaler (c.ctr_low - raw) >>> (SCALER_FRAC_SHIFT + 8) : ℕ) : ℤ))

/-- 16-bit X conversion of MicoJoy_swihandler (source lines 478-496). -/
def convert16_x (c : AxisCoef) (raw : ℕ) : ℤ :=
  clamp16 (if raw > c.ctr_low then
             if raw < c.ctr_high then 32767
             else 32767 + ((mul32 c.high_scaler (raw - c.ctr_high) >>> SCALER_FRAC_SHIFT : ℕ) : ℤ)
           else 32767 - ((mul32 c.low_scaler (c.ctr_low - raw) >>> SCALER_FRAC_SHIFT : ℕ) : ℤ))

/-- 16-bit Y conversion of MicoJoy_swihandler (source lines 498-519). -/
def convert16_y (c : AxisCoef) (raw : ℕ) : ℤ :=
  clamp16 (if raw > c.ctr_low then
             if raw < c.ctr_high then 32767
             else 32767 - ((mul32 c.high_scaler (raw - c.ctr_high) >>> SCALER_FRAC_SHIFT : ℕ) : ℤ)
           else 32767 + ((mul32 c.low_scaler (c.ctr_low - raw) >>> SCALER_FRAC_SHIFT : ℕ) : ℤ))

/-- Adaptive smoothing function smooth_value (source lines 1271-1303).
All comparisons and arithmetic are on unsigned 32-bit words. -/
def smooth_value (prev_value new_value stddev : ℕ) : ℕ :=
  if sub32 prev_value stddev ≤ new_value ∧ new_value ≤ add32 prev_value stddev then
    (prev_value * 3 + new_value) % U32 / 4
  else if sub32 prev_value (mul32 stddev 2) ≤ new_value ∧
      new_value ≤ add32 prev_value (mul32 stddev 2) then
    (prev_value + new_value) % U32 / 2
  else if sub32 prev_value (mul32 stddev 4) ≤ new_value ∧
      new_value ≤ add32 prev_value (mul32 stddev 4) then
    (new_value * 3 + prev_value) % U32 / 4
  else new_value

/-- The mutable driver state: the static variables of c.MicoJoy.
Fields hold 32-bit words (Bool for the C bool flags). -/
structure JoyState where
  calib_status : ℕ
  x_axis0 : ℕ
  x_axis1 : ℕ
  y_axis0 : ℕ
  y_axis1 : ℕ
  xcal0 : AxisCal
  xcal1 : AxisCal
  ycal0 : AxisCal
  ycal1 : AxisCal
  xcoef0 : AxisCoef
  xcoef1 : AxisCoef
  ycoef0 : AxisCoef
  ycoef1 : AxisCoef
  polling_stick : Bool
  swi_in_last_min : Bool
  callback_pending : Bool
  callback_free : Bool
  max_wait : ℕ
  tolerance : ℕ
  smooth : Bool
  end_zones : Bool
  ctr_zones : Bool
  poll_freq : ℕ
deriving DecidableEq

/-- recalc_coefficients (source lines 1003-1068): recomputes the derived
coefficient block of every stick selected by the bit mask, iterating
stick 1 then stick 0 as the source loop does. -/
def recalc_coefficients (sticks : ℕ) (st : JoyState) : JoyState :=
  let st1 :=
    if sticks.testBit 1 then
      { st with xcoef1 := recalcAxis st.ctr_zones st.end_zones st.xcal1
                ycoef1 := recalcAxis st.ctr_zones st.end_zones st.ycal1 }
    else st
  if sticks.testBit 0 then
    { st1 with xcoef0 := recalcAxis st1.ctr_zones st1.end_zones st1.xcal0
               ycoef0 := recalcAxis st1.ctr_zones st1.end_zones st1.ycal0 }
  else st1

/-- Initial driver state: the static initialisers of c.MicoJoy
(arrays zero, polling off, MAX_AXIS_WAIT_TIME 2000, MAX_GRANULARITY 30,
smoothing and both dead-zone kinds enabled, POLL_FREQUENCY-1 = 6). -/
def initAxisCal : AxisCal :=
  { min := 0, max := 0, ctr := 0, ctr_deadz := 0, end_deadz := 0, smooth := 0 }

/-- Initial coefficient block (all arrays zero). -/
def initAxisCoef : AxisCoef :=
  { ctr_low := 0, ctr_high := 0, low_scaler := 0, high_scaler := 0 }

/-- Initial driver state (static initialisers of the source file). -/
def initState : JoyState :=
  { calib_status := 0
    x_axis0 := 0, x_axis1 := 0, y_axis0 := 0, y_axis1 := 0
    xcal0 := initAxisCal, xcal1 := initAxisCal
    ycal0 := initAxisCal, ycal1 := initAxisCal
    xcoef0 := initAxisCoef, xcoef1 := initAxisCoef
    ycoef0 := initAxisCoef, ycoef1 := initAxisCoef
    polling_stick := false
    swi_in_last_min := false
    callback_pending := false
    callback_free := true
    max_wait := 2000
    tolerance := 30
    smooth := true
    end_zones := true
    ctr_zones := true
    poll_freq := 6 }

/-- The calibration of the scenario in the specification: stick 0, axis X,
ctr=703, ctrDeadzone=48, min=0, max=1406, end dead zone 0. -/
def scenarioCal : AxisCal :=
  { min := 0, max := 1406, ctr := 703, ctr_deadz := 48, end_deadz := 0, smooth := 0 }

/-- Driver state after manually calibrating stick 0 axis X with the
scenario values (as *JoystickCalib does, ending in recalc_coefficients
for that stick). -/
def scenarioState : JoyState :=
  recalc_coefficients 1 { initState with xcal0 := scenarioCal }

/-- The coefficient block the scenario produces for stick 0 axis X. -/
def scenCoef : AxisCoef := scenarioState.xcoef0

/-- One hardware observation inside the acquisition loop of read_joystick:
the game port status byte and the IOC timer 0 value read with interrupts
masked.  Bits SET in port mean the axis is still charging; the loop
inverts the byte so that set bits mean finished. -/
structure Sample where
  port : ℕ
  time : ℕ
deriving DecidableEq

/-- Local state of the acquisition loop of read_joystick
(source lines 1072-1207): the remaining request mask, the (possibly
wrap-adjusted) strobe time, previous sample time, last wait value, the
four pending axis readings (UINT_MAX = none yet) and the lost-stick set. -/
structure LoopSt where
  mask : ℕ
  start_time : ℕ
  prev_time : ℕ
  wait : ℕ
  nx0 : ℕ
  ny0 : ℕ
  nx1 : ℕ
  ny1 : ℕ
  sticks_lost : ℕ
deriving DecidableEq

/-- One axis-bit block of the acquisition loop (the four identical blocks
for PC_JOY_A_X, PC_JOY_A_Y, PC_JOY_B_X, PC_JOY_B_Y at source lines
1143-1202, parameterised by bit number and owning stick bit): when the
inverted, masked status byte has this axis bit set, record the elapsed
time if the inter-sample interval is within tolerance (else mark the
stick lost), and clear the bit from the request mask.  Returns the new
(pending reading, mask, lost set). -/
def axis_step (joy interval tol wait2 bit stickbit : ℕ)
    (nv mask lost : ℕ) : ℕ × ℕ × ℕ :=
  if joy.testBit bit then
    (if interval ≤ tol then wait2 else nv,
     mask &&& (UINT_MAX - (1 <<< bit)),
     if interval ≤ tol then lost else lost ||| stickbit)
  else (nv, mask, lost)

/-- One iteration of the acquisition loop of read_joystick (source lines
1114-1203) on one hardware sample: wrap adjustment of the timer, the
elapsed and inter-sample intervals, then the four axis-bit blocks in
source order.  The complement of the port byte is the 32-bit complement
the C int promotion produces; masking keeps only requested bits. -/
def read_step (tol : ℕ) (s : Sample) (l : LoopSt) : LoopSt :=
  let adj := s.time > l.start_time
  let start2 := if adj then l.start_time + 20000 else l.start_time
  let prev2 := if adj then l.prev_time + 20000 else l.prev_time
  let wait2 := sub32 start2 s.time
  let interval := sub32 prev2 s.time
  let joy := (UINT_MAX - s.port % 256) &&& l.mask
  let b0 := axis_step joy interval tol wait2 0 1 l.nx0 l.mask l.sticks_lost
  let b1 := axis_step joy interval tol wait2 1 1 l.ny0 b0.2.1 b0.2.2
  let b2 := axis_step joy interval tol wait2 2 2 l.nx1 b1.2.1 b1.2.2
  let b3 := axis_step joy interval tol wait2 3 2 l.ny1 b2.2.1 b2.2.2
  { mask := b3.2.1, start_time := start2, prev_time := s.time, wait := wait2,
    nx0 := b0.1, ny0 := b1.1, nx1 := b2.1, ny1 := b3.1, sticks_lost := b3.2.2 }

/-- The acquisition loop of read_joystick: while bits remain requested and
the elapsed time is below max_wait, consume the next hardware sample.
The trace is the sequence of observations the hardware would deliver. -/
def read_loop (maxw tol : ℕ) : List Sample → LoopSt → LoopSt
  | [], l => l
  | s :: rest, l =>
    if l.mask ≠ 0 ∧ l.wait < maxw then read_loop maxw tol rest (read_step tol s l) else l

/-- Initial loop state of read_joystick: prev_time = start_time, wait 0,
all four pending readings UINT_MAX, no stick lost. -/
def initLoop (mask start_time : ℕ) : LoopSt :=
  { mask := mask, start_time := start_time, prev_time := start_time, wait := 0,
    nx0 := UINT_MAX, ny0 := UINT_MAX, nx1 := UINT_MAX, ny1 := UINT_MAX,
    sticks_lost := 0 }

/-- Result of the acquisition loop for a given driver state, request mask,
strobe-time latch and hardware trace. -/
def loopResult (st : JoyState) (mask start_time : ℕ) (trace : List Sample) : LoopSt :=
  read_loop st.max_wait st.tolerance trace (initLoop mask start_time)

/-- read_joystick (source lines 1072-1267): runs the acquisition loop and
then commits each obtained reading to the cached axis values, smoothing it
when smoothing is globally enabled and the axis smooth width is positive.
Returns (timed-out mask, lost sticks, updated state); the C function has
no error result. -/
def read_joystick (st : JoyState) (mask start_time : ℕ) (trace : List Sample) :
    ℕ × ℕ × JoyState :=
  let l := loopResult st mask start_time trace
  let x0 := if l.nx0 ≠ UINT_MAX then
      (if st.smooth ∧ 0 < st.xcal0.smooth then smooth_value st.x_axis0 l.nx0 st.xcal0.smooth
       else l.nx0)
    else st.x_axis0
  let y0 := if l.ny0 ≠ UINT_MAX then
      (if st.smooth ∧ 0 < st.ycal0.smooth then smooth_value st.y_axis0 l.ny0 st.ycal0.smooth
       else l.ny0)
    else st.y_axis0
  let x1 := if l.nx1 ≠ UINT_MAX then
      (if st.smooth ∧ 0 < st.xcal1.smooth then smooth_value st.x_axis1 l.nx1 st.xcal1.smooth
       else l.nx1)
    else st.x_axis1
  let y1 := if l.ny1 ≠ UINT_MAX then
      (if st.smooth ∧ 0 < st.ycal1.smooth then smooth_value st.y_axis1 l.ny1 st.ycal1.smooth
       else l.ny1)
    else st.y_axis1
  (l.mask, l.sticks_lost,
    { st with x_axis0 := x0, y_axis0 := y0, x_axis1 := x1, y_axis1 := y1 })

/-- Errors the modelled operations can return. -/
inductive JoyErr where
  | calibIncomplete
  | badReason
  | badArgs
  | badJoyNum
  | osError
deriving DecidableEq

/-- The Joystick_Read case of MicoJoy_swihandler (source lines 349-557).
reason and stick are the two bytes unpacked from R0.  osOk tells whether
the OS_CallEvery registration of the poll routine would succeed.  The
packing of the converted positions and button bits into R0/R1 only reads
state; it is performed with convert8_x, convert8_y, convert16_x,
convert16_y on the cached axis values and is not repeated here. -/
def joystick_read (reason stick : ℕ) (osOk : Bool) (st : JoyState) :
    Option JoyErr × JoyState :=
  if st.calib_status ≠ 0 then (some JoyErr.calibIncomplete, st)
  else
    let st1 := { st with swi_in_last_min := true }
    if st1.polling_stick = false then
      if osOk = false then (some JoyErr.osError, st1)
      else
        let st2 := { st1 with polling_stick := true
                              x_axis0 := st1.xcal0.ctr
                              y_axis0 := st1.ycal0.ctr
                              x_axis1 := st1.xcal1.ctr
                              y_axis1 := st1.ycal1.ctr }
        if reason = 0 ∨ reason = 1 then (none, st2) else (some JoyErr.badReason, st2)
    else
      if reason = 0 ∨ reason = 1 then (none, st1) else (some JoyErr.badReason, st1)

/-- Outcome of one call of get_av_stick_pos on both sticks (source lines
1440-1621): the averaged positions and the deviation envelopes it stores
through its array arguments.  The values depend only on the hardware
samples the routine collects, so they are inputs of the model. -/
structure Meas where
  xavg0 : ℕ
  xavg1 : ℕ
  yavg0 : ℕ
  yavg1 : ℕ
  xjit0 : ℕ
  xjit1 : ℕ
  yjit0 : ℕ
  yjit1 : ℕ
deriving DecidableEq

/-- The Joystick_CalibrateTopRight case of MicoJoy_swihandler (source
lines 332-346 and 559-586).  The preamble stops polling when calibration
begins (removeOk tells whether OS_RemoveTickerEvent succeeds).  The
measurement m stands for the data get_av_stick_pos samples in this call;
top-right writes the X maxima and Y minima.  When this call completes the
two-phase protocol, each end dead zone becomes the larger of the stored
envelope and the fresh one, coefficients are recomputed for both sticks
and the status returns to CALIB_NONE; otherwise the fresh envelopes are
stored directly in the end dead zones.  The SWI always succeeds. -/
def calibrate_top_right (m : Meas) (removeOk : Bool) (st : JoyState) : JoyState :=
  let st := if st.calib_status = 0 ∧ st.polling_stick ∧ removeOk then
      { st with polling_stick := false }
    else st
  let status := st.calib_status ||| 1
  if status = 3 then
    let st1 := { st with
      calib_status := 0
      xcal0 := { st.xcal0 with
                 max := m.xavg0
                 end_deadz := Nat.max st.xcal0.end_deadz m.xjit0 }
      xcal1 := { st.xcal1 with
                 max := m.xavg1
                 end_deadz := Nat.max st.xcal1.end_deadz m.xjit1 }
      ycal0 := { st.ycal0 with
                 min := m.yavg0
                 end_deadz := Nat.max st.ycal0.end_deadz m.yjit0 }
      ycal1 := { st.ycal1 with
                 min := m.yavg1
                 end_deadz := Nat.max st.ycal1.end_deadz m.yjit1 } }
    recalc_coefficients 3 st1
  else
    { st with
      calib_status := status
      xcal0 := { st.xcal0 with max := m.xavg0, end_deadz := m.xjit0 }
      xcal1 := { st.xcal1 with max := m.xavg1, end_deadz := m.xjit1 }
      ycal0 := { st.ycal0 with min := m.yavg0, end_deadz := m.yjit0 }
      ycal1 := { st.ycal1 with min := m.yavg1, end_deadz := m.yjit1 } }

/-- The Joystick_CalibrateBottomLeft case of MicoJoy_swihandler (source
lines 332-346 and 588-615): symmetric to top-right, writing the X minima
and Y maxima. -/
def calibrate_bottom_left (m : Meas) (removeOk : Bool) (st : JoyState) : JoyState :=
  let st := if st.calib_status = 0 ∧ st.polling_stick ∧ removeOk then
      { st with polling_stick := false }
    else st
  let status := st.calib_status ||| 2
  if status = 3 then
    let st1 := { st with
      calib_status := 0
      xcal0 := { st.xcal0 with
                 min := m.xavg0
                 end_deadz := Nat.max st.xcal0.end_deadz m.xjit0 }
      xcal1 := { st.xcal1 with
                 min := m.xavg1
                 end_deadz := Nat.max st.xcal1.end_deadz m.xjit1 }
      ycal0 := { st.ycal0 with
                 max := m.yavg0
                 end_deadz := Nat.max st.ycal0.end_deadz m.yjit0 }
      ycal1 := { st.ycal1 with
                 max := m.yavg1
                 end_deadz := Nat.max st.ycal1.end_deadz m.yjit1 } }
    recalc_coefficients 3 st1
  else
    { st with
      calib_status := status
      xcal0 := { st.xcal0 with min := m.xavg0, end_deadz := m.xjit0 }
      xcal1 := { st.xcal1 with min := m.xavg1, end_deadz := m.xjit1 }
      ycal0 := { st.ycal0 with max := m.yavg0, end_deadz := m.yjit0 }
      ycal1 := { st.ycal1 with max := m.yavg1, end_deadz := m.yjit1 } }

/-- Parsed arguments of *JoystickConfig as OS_ReadArgs delivers them:
presence of each switch and the evaluated integer of each value option. -/
structure ConfigArgs where
  smoothSw : Bool
  nosmoothSw : Bool
  ctrzoneSw : Bool
  noctrzoneSw : Bool
  endzoneSw : Bool
  noendzoneSw : Bool
  toleranceArg : Option ℤ
  timeoutArg : Option ℤ
  pollArg : Option ℤ
deriving DecidableEq

/-- Conversion of an evaluated (signed int) argument to an unsigned
driver word, as C assignment to unsigned int does. -/
def toU32 (v : ℤ) : ℕ := (v % (U32 : ℤ)).toNat

/-- The CMD_JoystickConfig case of MicoJoy_cmdhandler with arguments
supplied (source lines 649-729).  Faithful to the source, including the
guard of the endzone branch, which tests ctr_zones where its own comment
says it globally enables end zones.  osRemoveOk and osAddOk tell whether
the two ticker re-registration calls of the poll branch succeed. -/
def joystick_config (a : ConfigArgs) (osRemoveOk osAddOk : Bool) (st : JoyState) :
    Option JoyErr × JoyState :=
  if (a.smoothSw ∧ a.nosmoothSw) ∨ (a.ctrzoneSw ∧ a.noctrzoneSw) ∨
      (a.endzoneSw ∧ a.noendzoneSw) then
    (some JoyErr.badArgs, st)
  else
    let st := if a.smoothSw then { st with smooth := true }
      else if a.nosmoothSw then { st with smooth := false } else st
    let p1 : Bool × JoyState :=
      if a.ctrzoneSw then
        (if st.ctr_zones = false then (true, { st with ctr_zones := true }) else (false, st))
      else if a.noctrzoneSw then (true, { st with ctr_zones := false })
      else (false, st)
    let p2 : Bool × JoyState :=
      if a.endzoneSw then
        (if p1.2.ctr_zones = false then (true, { p1.2 with end_zones := true })
         else (p1.1, p1.2))
      else if a.noendzoneSw then (true, { p1.2 with end_zones := false })
      else (p1.1, p1.2)
    let st := if p2.1 then recalc_coefficients 3 p2.2 else p2.2
    let st := match a.toleranceArg with
      | some v => { st with tolerance := toU32 v }
      | none => st
    let st := match a.timeoutArg with
      | some v => { st with max_wait := toU32 v }
      | none => st
    match a.pollArg with
    | none => (none, st)
    | some v =>
      let new_freq : ℤ := if v - 1 ≤ 0 then 1 else v - 1
      if new_freq ≠ (st.poll_freq : ℤ) then
        if st.polling_stick then
          if osRemoveOk = false then (some JoyErr.osError, st)
          else if osAddOk = false then
            (some JoyErr.osError, { st with polling_stick := false })
          else (none, { st with poll_freq := new_freq.toNat })
        else (none, { st with poll_freq := new_freq.toNat })
      else (none, st)

/-! Helper lemmas shared by the claim theorems. -/

theorem clamp8_lb (v : ℤ) : -127 ≤ clamp8 v := by
  unfold clamp8; split_ifs <;> omega

theorem clamp8_ub (v : ℤ) : clamp8 v ≤ 127 := by
  unfold clamp8; split_ifs <;> omega

theorem clamp16_lb (v : ℤ) : 0 ≤ clamp16 v := by
  unfold clamp16; split_ifs <;> omega

theorem clamp16_ub (v : ℤ) : clamp16 v ≤ 65535 := by
  unfold clamp16; split_ifs <;> omega

theorem clamp8_mono {v w : ℤ} (h : v ≤ w) : clamp8 v ≤ clamp8 w := by
  unfold clamp8; split_ifs <;> omega

theorem clamp16_mono {v w : ℤ} (h : v ≤ w) : clamp16 v ≤ clamp16 w := by
  unfold clamp16; split_ifs <;> omega

theorem shiftRight_le_shiftRight {a b : ℕ} (h : a ≤ b) (k : ℕ) :
    a >>> k ≤ b >>> k := by
  simpa [Nat.shiftRight_eq_div_pow] using Nat.div_le_div_right (c := 2 ^ k) h

theorem recalc_coefficients_frame (sticks : ℕ) (st : JoyState) :
    (recalc_coefficients sticks st).calib_status = st.calib_status ∧
    (recalc_coefficients sticks st).x_axis0 = st.x_axis0 ∧
    (recalc_coefficients sticks st).x_axis1 = st.x_axis1 ∧
    (recalc_coefficients sticks st).y_axis0 = st.y_axis0 ∧
    (recalc_coefficients sticks st).y_axis1 = st.y_axis1 ∧
    (recalc_coefficients sticks st).xcal0 = st.xcal0 ∧
    (recalc_coefficients sticks st).xcal1 = st.xcal1 ∧
    (recalc_coefficients sticks st).ycal0 = st.ycal0 ∧
    (recalc_coefficients sticks st).ycal1 = st.ycal1 ∧
    (recalc_coefficients sticks st).polling_stick = st.polling_stick ∧
    (recalc_coefficients sticks st).swi_in_last_min = st.swi_in_last_min ∧
    (recalc_coefficients sticks st).callback_pending = st.callback_pending ∧
    (recalc_coefficients sticks st).callback_free = st.callback_free ∧
    (recalc_coefficients sticks st).max_wait = st.max_wait ∧
    (recalc_coefficients sticks st).tolerance = st.tolerance ∧
    (recalc_coefficients sticks st).smooth = st.smooth ∧
    (recalc_coefficients sticks st).end_zones = st.end_zones ∧
    (recalc_coefficients sticks st).ctr_zones = st.ctr_zones ∧
    (recalc_coefficients sticks st).poll_freq = st.poll_freq := by
  unfold recalc_coefficients
  by_cases h1 : sticks.testBit 1 <;> by_cases h0 : sticks.testBit 0 <;>
    simp [h1, h0]

/-- Claim C2 counterexample: with stick 0 axis X calibrated ctr=703,
ctrDeadzone=48, min=0, max=1406, end dead zone 0, a cached raw timing of
1406 does not yield 0xFFFF in the 16-bit read. -/
theorem claim2_counterexample : convert16_x scenCoef 1406 ≠ 65535 := by decide

/-- Claim C2 (amended): in the scenario above, raw=703 yields 0 in the
8-bit read and 0x7fff in the 16-bit read; raw=0 yields -127 and 0x0000;
raw=1406 yields 127 and 0xFFFE (not 0xFFFF: the truncated fixed-point
scaler 2^29/655 loses one count over the half range). -/
theorem claim2_amended :
    convert8_x scenCoef 703 = 0 ∧ convert16_x scenCoef 703 = 32767 ∧
    convert8_x scenCoef 0 = -127 ∧ convert16_x scenCoef 0 = 0 ∧
    convert8_x scenCoef 1406 = 127 ∧ convert16_x scenCoef 1406 = 65534 := by
  decide

/-- Claim C3: recomputing coefficients sets a scaler to 0 whenever its
divisor word is zero or negative as a signed 32-bit value (at or above
2^31 as a word); recalc_coefficients has no error result, and the 8-bit
and 16-bit conversions on the resulting coefficients always return a
value clamped into the legal output range. -/
theorem claim3_theorem (cz ez : Bool) (cal : AxisCal) (raw : ℕ) :
    ((low_divisor cz ez cal = 0 ∨ 2 ^ 31 ≤ low_divisor cz ez cal) →
       (recalcAxis cz ez cal).low_scaler = 0) ∧
    ((high_divisor cz ez cal = 0 ∨ 2 ^ 31 ≤ high_divisor cz ez cal) →
       (recalcAxis cz ez cal).high_scaler = 0) ∧
    (-127 ≤ convert8_x (recalcAxis cz ez cal) raw ∧
       convert8_x (recalcAxis cz ez cal) raw ≤ 127) ∧
    (-127 ≤ convert8_y (recalcAxis cz ez cal) raw ∧
       convert8_y (recalcAxis cz ez cal) raw ≤ 127) ∧
    (0 ≤ convert16_x (recalcAxis cz ez cal) raw ∧
       convert16_x (recalcAxis cz ez cal) raw ≤ 65535) ∧
    (0 ≤ convert16_y (recalcAxis cz ez cal) raw ∧
       convert16_y (recalcAxis cz ez cal) raw ≤ 65535) := by
  refine ⟨?_, ?_, ⟨clamp8_lb _, clamp8_ub _⟩, ⟨clamp8_lb _, clamp8_ub _⟩,
    ⟨clamp16_lb _, clamp16_ub _⟩, ⟨clamp16_lb _, clamp16_ub _⟩⟩
  · rintro (h | h)
    · simp [recalcAxis, h]
    · have hlt : scaler_dividend < low_divisor cz ez cal :=
        lt_of_lt_of_le (by decide) h
      have hne : low_divisor cz ez cal ≠ 0 := by omega
      simp [recalcAxis, hne, Nat.div_eq_of_lt hlt]
  · rintro (h | h)
    · simp [recalcAxis, h]
    · have hlt : scaler_dividend < high_divisor cz ez cal :=
        lt_of_lt_of_le (by decide) h
      have hne : high_divisor cz ez cal ≠ 0 := by omega
      simp [recalcAxis, hne, Nat.div_eq_of_lt hlt]

/-- Witness for claim C3 at a concrete calibration whose low divisor word
is negative as a signed value (ctr 0, min 5 gives divisor 2^32 - 5). -/
theorem claim3_witness :
    (recalcAxis true true
      { min := 5, max := 0, ctr := 0, ctr_deadz := 0, end_deadz := 0,
        smooth := 0 }).low_scaler = 0 :=
  (claim3_theorem true true
    { min := 5, max := 0, ctr := 0, ctr_deadz := 0, end_deadz := 0,
      smooth := 0 } 0).1 (Or.inr (by decide))

/-- Claim C4 counterexample: prev=0, new=1, width=2 satisfies the claim
premises (width positive, delta 1 at most width), yet smooth_value
returns the new value verbatim because the unsigned comparison
prev - width wraps below zero; the claimed result would be 0. -/
theorem claim4_counterexample :
    (0 < 2 ∧ Nat.dist 1 0 ≤ 2) ∧ smooth_value 0 1 2 ≠ (3 * 0 + 1) / 4 := by
  decide

/-- Claim C4 (amended): for width > 0, when the unsigned window arithmetic
cannot wrap (width at most prev, prev + width and 3*prev + new below
2^32), a new value within width of prev - including a delta exactly equal
to width - receives heavy damping (3*prev + new) / 4 with truncation. -/
theorem claim4_amended (p n w : ℕ) (hw : 0 < w) (hwp : w ≤ p)
    (hpw : p + w < U32) (h3 : 3 * p + n < U32)
    (hlo : p - w ≤ n) (hhi : n ≤ p + w) :
    smooth_value p n w = (3 * p + n) / 4 := by
  have hpU : p < U32 := by omega
  have hwU : w < U32 := by omega
  have hs : sub32 p w = p - w := by
    unfold sub32
    rw [Nat.mod_eq_of_lt hpU, Nat.mod_eq_of_lt hwU,
      (by omega : p + (U32 - w) = U32 + (p - w)), Nat.add_mod_left,
      Nat.mod_eq_of_lt (by omega)]
  have ha : add32 p w = p + w := Nat.mod_eq_of_lt hpw
  unfold smooth_value
  rw [hs, ha, if_pos ⟨hlo, hhi⟩, Nat.mod_eq_of_lt (by omega : p * 3 + n < U32)]
  congr 1
  ring

/-- Witness for claim C4 at prev=100, new=102, width=2. -/
theorem claim4_witness : smooth_value 100 102 2 = (3 * 100 + 102) / 4 :=
  claim4_amended 100 102 2 (by decide) (by decide) (by decide) (by decide)
    (by decide) (by decide)

/-- Claim C8 (the code is wrong here): starting from a state with centre
zones enabled and end zones disabled, a Config operation supplying only
the endzone switch leaves end zones disabled and the whole state
untouched, because the enabling branch of the endzone switch tests the
ctr_zones flag instead of end_zones. -/
theorem claim8_failing :
    (joystick_config
      { smoothSw := false, nosmoothSw := false, ctrzoneSw := false,
        noctrzoneSw := false, endzoneSw := true, noendzoneSw := false,
        toleranceArg := none, timeoutArg := none, pollArg := none }
      true true { initState with end_zones := false }).1 = none ∧
    (joystick_config
      { smoothSw := false, nosmoothSw := false, ctrzoneSw := false,
        noctrzoneSw := false, endzoneSw := true, noendzoneSw := false,
        toleranceArg := none, timeoutArg := none, pollArg := none }
      true true { initState with end_zones := false }).2
      = { initState with end_zones := false } := by
  decide

/-- Claim C10: recomputing coefficients writes only the derived
coefficient blocks of the sticks selected by the mask; every primary
calibration value, every cached axis value, the whole global
configuration and the coefficient blocks of sticks outside the mask are
unchanged. -/
theorem claim10_theorem (sticks : ℕ) (st : JoyState) :
    ((recalc_coefficients sticks st).xcal0 = st.xcal0 ∧
     (recalc_coefficients sticks st).ycal0 = st.ycal0 ∧
     (recalc_coefficients sticks st).xcal1 = st.xcal1 ∧
     (recalc_coefficients sticks st).ycal1 = st.ycal1 ∧
     (recalc_coefficients sticks st).x_axis0 = st.x_axis0 ∧
     (recalc_coefficients sticks st).y_axis0 = st.y_axis0 ∧
     (recalc_coefficients sticks st).x_axis1 = st.x_axis1 ∧
     (recalc_coefficients sticks st).y_axis1 = st.y_axis1 ∧
     (recalc_coefficients sticks st).calib_status = st.calib_status ∧
     (recalc_coefficients sticks st).polling_stick = st.polling_stick ∧
     (recalc_coefficients sticks st).swi_in_last_min = st.swi_in_last_min ∧
     (recalc_coefficients sticks st).callback_pending = st.callback_pending ∧
     (recalc_coefficients sticks st).callback_free = st.callback_free ∧
     (recalc_coefficients sticks st).max_wait = st.max_wait ∧
     (recalc_coefficients sticks st).tolerance = st.tolerance ∧
     (recalc_coefficients sticks st).smooth = st.smooth ∧
     (recalc_coefficients sticks st).end_zones = st.end_zones ∧
     (recalc_coefficients sticks st).ctr_zones = st.ctr_zones ∧
     (recalc_coefficients sticks st).poll_freq = st.poll_freq) ∧
    (sticks.testBit 0 = false →
       (recalc_coefficients sticks st).xcoef0 = st.xcoef0 ∧
       (recalc_coefficients sticks st).ycoef0 = st.ycoef0) ∧
    (sticks.testBit 1 = false →
       (recalc_coefficients sticks st).xcoef1 = st.xcoef1 ∧
       (recalc_coefficients sticks st).ycoef1 = st.ycoef1) := by
  refine ⟨?_, ?_, ?_⟩
  · obtain ⟨h1, h2, h3, h4, h5, h6, h7, h8, h9, h10, h11, h12, h13, h14,
      h15, h16, h17, h18, h19⟩ := recalc_coefficients_frame sticks st
    exact ⟨h6, h8, h7, h9, h2, h4, h3, h5, h1, h10, h11, h12, h13, h14,
      h15, h16, h17, h18, h19⟩
  · intro h0
    unfold recalc_coefficients
    by_cases h1 : sticks.testBit 1 <;> simp [h1, h0]
  · intro h1
    unfold recalc_coefficients
    by_cases h0 : sticks.testBit 0 <;> simp [h1, h0]

/-- Witness for claim C10 with the mask selecting only stick 0: the
coefficient block of stick 1 is untouched. -/
theorem claim10_witness :
    (recalc_coefficients 1 initState).xcoef1 = initState.xcoef1 ∧
    (recalc_coefficients 1 initState).ycoef1 = initState.ycoef1 :=
  (claim10_theorem 1 initState).2.2 (by decide)

/-- Claim C6: while the calibration state is not CALIB_NONE, every
Joystick_Read call fails with the calibration-incomplete error and leaves
the driver state unchanged; once the state is CALIB_NONE, reads with a
supported reason code succeed again (given the poll timer is already
running or its registration succeeds). -/
theorem claim6_theorem (reason stick : ℕ) (osOk : Bool) (st : JoyState) :
    (st.calib_status ≠ 0 →
       joystick_read reason stick osOk st = (some JoyErr.calibIncomplete, st)) ∧
    (st.calib_status = 0 → (reason = 0 ∨ reason = 1) →
       (st.polling_stick = true ∨ osOk = true) →
       (joystick_read reason stick osOk st).1 = none) := by
  constructor
  · intro h
    unfold joystick_read
    rw [if_pos h]
  · intro h hr hos
    unfold joystick_read
    rw [if_neg (by simp [h])]
    by_cases hp : st.polling_stick
    · simp [hp, hr]
    · have hosT : osOk = true := by
        rcases hos with hos | hos
        · exact absurd hos hp
        · exact hos
      simp [hp, hosT, hr]

/-- Witness for claim C6: a read attempted with only the top-right corner
calibrated fails with the calibration error and changes nothing. -/
theorem claim6_witness :
    joystick_read 0 0 true { initState with calib_status := 1 }
      = (some JoyErr.calibIncomplete, { initState with calib_status := 1 }) :=
  (claim6_theorem 0 0 true { initState with calib_status := 1 }).1 (by decide)

/-- Claim C7: a Joystick_Read while idle (not polling) and fully
calibrated reseeds every cached axis value to the centre calibration
value of that axis and records polling as started; if registering the
periodic timer fails, the error is returned and polling is not recorded
as started. -/
theorem claim7_theorem (reason stick : ℕ) (osOk : Bool) (st : JoyState)
    (h0 : st.calib_status = 0) (hp : st.polling_stick = false) :
    (osOk = true →
       (joystick_read reason stick osOk st).2.polling_stick = true ∧
       (joystick_read reason stick osOk st).2.x_axis0 = st.xcal0.ctr ∧
       (joystick_read reason stick osOk st).2.y_axis0 = st.ycal0.ctr ∧
       (joystick_read reason stick osOk st).2.x_axis1 = st.xcal1.ctr ∧
       (joystick_read reason stick osOk st).2.y_axis1 = st.ycal1.ctr) ∧
    (osOk = false →
       (joystick_read reason stick osOk st).1 = some JoyErr.osError ∧
       (joystick_read reason stick osOk st).2.polling_stick = false) := by
  constructor
  · intro hok
    subst hok
    unfold joystick_read
    rw [if_neg (by simp [h0])]
    by_cases hr : reason = 0 ∨ reason = 1 <;> simp [hp, hr]
  · intro hko
    subst hko
    unfold joystick_read
    rw [if_neg (by simp [h0])]
    simp [hp]

/-- Witness for claim C7 at the initial driver state with a succeeding
timer registration. -/
theorem claim7_witness :
    (joystick_read 0 0 true initState).2.polling_stick = true ∧
    (joystick_read 0 0 true initState).2.x_axis0 = initState.xcal0.ctr ∧
    (joystick_read 0 0 true initState).2.y_axis0 = initState.ycal0.ctr ∧
    (joystick_read 0 0 true initState).2.x_axis1 = initState.xcal1.ctr ∧
    (joystick_read 0 0 true initState).2.y_axis1 = initState.ycal1.ctr :=
  (claim7_theorem 0 0 true initState (by decide) (by decide)).1 rfl

theorem ctr_phase1 (m : Meas) (r : Bool) (st : JoyState)
    (h : st.calib_status = 0) :
    (calibrate_top_right m r st).calib_status = 1 ∧
    (calibrate_top_right m r st).xcal0.end_deadz = m.xjit0 ∧
    (calibrate_top_right m r st).ycal0.end_deadz = m.yjit0 ∧
    (calibrate_top_right m r st).xcal1.end_deadz = m.xjit1 ∧
    (calibrate_top_right m r st).ycal1.end_deadz = m.yjit1 := by
  unfold calibrate_top_right
  simp only []
  split_ifs with h1 h2 <;> simp_all

theorem cbl_phase1 (m : Meas) (r : Bool) (st : JoyState)
    (h : st.calib_status = 0) :
    (calibrate_bottom_left m r st).calib_status = 2 ∧
    (calibrate_bottom_left m r st).xcal0.end_deadz = m.xjit0 ∧
    (calibrate_bottom_left m r st).ycal0.end_deadz = m.yjit0 ∧
    (calibrate_bottom_left m r st).xcal1.end_deadz = m.xjit1 ∧
    (calibrate_bottom_left m r st).ycal1.end_deadz = m.yjit1 := by
  unfold calibrate_bottom_left
  simp only []
  split_ifs with h1 h2 <;> simp_all

theorem cbl_phase2 (m : Meas) (r : Bool) (st : JoyState)
    (h : st.calib_status = 1) :
    (calibrate_bottom_left m r st).calib_status = 0 ∧
    (calibrate_bottom_left m r st).xcal0.end_deadz = Nat.max st.xcal0.end_deadz m.xjit0 ∧
    (calibrate_bottom_left m r st).ycal0.end_deadz = Nat.max st.ycal0.end_deadz m.yjit0 ∧
    (calibrate_bottom_left m r st).xcal1.end_deadz = Nat.max st.xcal1.end_deadz m.xjit1 ∧
    (calibrate_bottom_left m r st).ycal1.end_deadz = Nat.max st.ycal1.end_deadz m.yjit1 := by
  unfold calibrate_bottom_left
  simp only []
  split_ifs with h1 h2 <;> simp_all [recalc_coefficients_frame]

theorem ctr_phase2 (m : Meas) (r : Bool) (st : JoyState)
    (h : st.calib_status = 2) :
    (calibrate_top_right m r st).calib_status = 0 ∧
    (calibrate_top_right m r st).xcal0.end_deadz = Nat.max st.xcal0.end_deadz m.xjit0 ∧
    (calibrate_top_right m r st).ycal0.end_deadz = Nat.max st.ycal0.end_deadz m.yjit0 ∧
    (calibrate_top_right m r st).xcal1.end_deadz = Nat.max st.xcal1.end_deadz m.xjit1 ∧
    (calibrate_top_right m r st).ycal1.end_deadz = Nat.max st.ycal1.end_deadz m.yjit1 := by
  unfold calibrate_top_right
  simp only []
  split_ifs with h1 h2 <;> simp_all [recalc_coefficients_frame]

/-- Claim C5: starting with no calibration pending, performing the
top-right and bottom-left corner calibrations one after the other, in
either order, returns the calibration state to CALIB_NONE and sets the
end dead zone of each axis to the larger of the deviation envelopes
measured in the two phases (m1 first, m2 second). -/
theorem claim5_theorem (st : JoyState) (m1 m2 : Meas) (r1 r2 r3 r4 : Bool)
    (h : st.calib_status = 0) :
    ((calibrate_bottom_left m2 r2 (calibrate_top_right m1 r1 st)).calib_status = 0 ∧
     (calibrate_bottom_left m2 r2 (calibrate_top_right m1 r1 st)).xcal0.end_deadz
       = Nat.max m1.xjit0 m2.xjit0 ∧
     (calibrate_bottom_left m2 r2 (calibrate_top_right m1 r1 st)).ycal0.end_deadz
       = Nat.max m1.yjit0 m2.yjit0 ∧
     (calibrate_bottom_left m2 r2 (calibrate_top_right m1 r1 st)).xcal1.end_deadz
       = Nat.max m1.xjit1 m2.xjit1 ∧
     (calibrate_bottom_left m2 r2 (calibrate_top_right m1 r1 st)).ycal1.end_deadz
       = Nat.max m1.yjit1 m2.yjit1) ∧
    ((calibrate_top_right m2 r4 (calibrate_bottom_left m1 r3 st)).calib_status = 0 ∧
     (calibrate_top_right m2 r4 (calibrate_bottom_left m1 r3 st)).xcal0.end_deadz
       = Nat.max m1.xjit0 m2.xjit0 ∧
     (calibrate_top_right m2 r4 (calibrate_bottom_left m1 r3 st)).ycal0.end_deadz
       = Nat.max m1.yjit0 m2.yjit0 ∧
     (calibrate_top_right m2 r4 (calibrate_bottom_left m1 r3 st)).xcal1.end_deadz
       = Nat.max m1.xjit1 m2.xjit1 ∧
     (calibrate_top_right m2 r4 (calibrate_bottom_left m1 r3 st)).ycal1.end_deadz
       = Nat.max m1.yjit1 m2.yjit1) := by
  constructor
  · obtain ⟨p1s, p1x0, p1y0, p1x1, p1y1⟩ := ctr_phase1 m1 r1 st h
    obtain ⟨p2s, p2x0, p2y0, p2x1, p2y1⟩ :=
      cbl_phase2 m2 r2 (calibrate_top_right m1 r1 st) p1s
    rw [p2s, p2x0, p2y0, p2x1, p2y1, p1x0, p1y0, p1x1, p1y1]
    exact ⟨rfl, rfl, rfl, rfl, rfl⟩
  · obtain ⟨p1s, p1x0, p1y0, p1x1, p1y1⟩ := cbl_phase1 m1 r3 st h
    obtain ⟨p2s, p2x0, p2y0, p2x1, p2y1⟩ :=
      ctr_phase2 m2 r4 (calibrate_bottom_left m1 r3 st) p1s
    rw [p2s, p2x0, p2y0, p2x1, p2y1, p1x0, p1y0, p1x1, p1y1]
    exact ⟨rfl, rfl, rfl, rfl, rfl⟩

/-- Witness for claim C5: the full two-phase calibration from the initial
state with concrete measured envelopes. -/
theorem claim5_witness :
    (calibrate_bottom_left
        { xavg0 := 10, xavg1 := 11, yavg0 := 12, yavg1 := 13,
          xjit0 := 3, xjit1 := 4, yjit0 := 5, yjit1 := 6 } true
      (calibrate_top_right
        { xavg0 := 1400, xavg1 := 1500, yavg0 := 20, yavg1 := 21,
          xjit0 := 7, xjit1 := 2, yjit0 := 1, yjit1 := 9 } true
        initState)).calib_status = 0 :=
  ((claim5_theorem initState
      { xavg0 := 1400, xavg1 := 1500, yavg0 := 20, yavg1 := 21,
        xjit0 := 7, xjit1 := 2, yjit0 := 1, yjit1 := 9 }
      { xavg0 := 10, xavg1 := 11, yavg0 := 12, yavg1 := 13,
        xjit0 := 3, xjit1 := 4, yjit0 := 5, yjit1 := 6 }
      true true true true (by decide)).1).1

theorem mul32_shift_mono {s hi r1 r2 : ℕ} (h12 : r1 ≤ r2)
    (hov : s * (r2 - hi) < U32) (k : ℕ) :
    mul32 s (r1 - hi) >>> k ≤ mul32 s (r2 - hi) >>> k := by
  have hle : s * (r1 - hi) ≤ s * (r2 - hi) :=
    Nat.mul_le_mul_left s (by omega)
  have e1 : mul32 s (r1 - hi) = s * (r1 - hi) := by
    unfold mul32; exact Nat.mod_eq_of_lt (lt_of_le_of_lt hle hov)
  have e2 : mul32 s (r2 - hi) = s * (r2 - hi) := by
    unfold mul32; exact Nat.mod_eq_of_lt hov
  rw [e1, e2]
  exact shiftRight_le_shiftRight hle k

theorem mul32_shift_anti {s lo r1 r2 : ℕ} (h12 : r1 ≤ r2)
    (hov : s * (lo - r1) < U32) (k : ℕ) :
    mul32 s (lo - r2) >>> k ≤ mul32 s (lo - r1) >>> k := by
  have hle : s * (lo - r2) ≤ s * (lo - r1) :=
    Nat.mul_le_mul_left s (by omega)
  have e1 : mul32 s (lo - r2) = s * (lo - r2) := by
    unfold mul32; exact Nat.mod_eq_of_lt (lt_of_le_of_lt hle hov)
  have e2 : mul32 s (lo - r1) = s * (lo - r1) := by
    unfold mul32; exact Nat.mod_eq_of_lt hov
  rw [e1, e2]
  exact shiftRight_le_shiftRight hle k

theorem convert8_x_mono (c : AxisCoef) {r1 r2 : ℕ} (h12 : r1 ≤ r2)
    (hhi : c.high_scaler * (r2 - c.ctr_high) < U32)
    (hlo : c.low_scaler * (c.ctr_low - r1) < U32) :
    convert8_x c r1 ≤ convert8_x c r2 := by
  unfold convert8_x
  apply clamp8_mono
  split_ifs with h1 h1h h2h h2h2 h2 h2h3 <;>
    first
      | omega
      | exact le_refl _
      | exact Int.natCast_nonneg _
      | exact neg_nonpos.mpr (Int.natCast_nonneg _)
      | exact le_trans (neg_nonpos.mpr (Int.natCast_nonneg _)) (Int.natCast_nonneg _)
      | exact_mod_cast mul32_shift_mono h12 hhi (SCALER_FRAC_SHIFT + 8)
      | exact neg_le_neg (by exact_mod_cast mul32_shift_anti h12 hlo (SCALER_FRAC_SHIFT + 8))

theorem convert16_x_mono (c : AxisCoef) {r1 r2 : ℕ} (h12 : r1 ≤ r2)
    (hhi : c.high_scaler * (r2 - c.ctr_high) < U32)
    (hlo : c.low_scaler * (c.ctr_low - r1) < U32) :
    convert16_x c r1 ≤ convert16_x c r2 := by
  unfold convert16_x
  apply clamp16_mono
  split_ifs with h1 h1h h2h h2h2 h2 h2h3 <;>
    first
      | omega
      | exact le_refl _
      | exact le_add_of_nonneg_right (Int.natCast_nonneg _)
      | exact sub_le_self 32767 (Int.natCast_nonneg _)
      | exact le_trans (sub_le_self 32767 (Int.natCast_nonneg _))
          (le_add_of_nonneg_right (Int.natCast_nonneg _))
      | exact add_le_add_left
          (by exact_mod_cast mul32_shift_mono h12 hhi SCALER_FRAC_SHIFT) 32767
      | exact sub_le_sub_left
          (by exact_mod_cast mul32_shift_anti h12 hlo SCALER_FRAC_SHIFT) 32767

theorem convert8_y_anti (c : AxisCoef) {r1 r2 : ℕ} (h12 : r1 ≤ r2)
    (hhi : c.high_scaler * (r2 - c.ctr_high) < U32)
    (hlo : c.low_scaler * (c.ctr_low - r1) < U32) :
    convert8_y c r2 ≤ convert8_y c r1 := by
  unfold convert8_y
  apply clamp8_mono
  split_ifs with h1 h1h h2h h2h2 h2 h2h3 <;>
    first
      | omega
      | exact le_refl _
      | exact Int.natCast_nonneg _
      | exact neg_nonpos.mpr (Int.natCast_nonneg _)
      | exact le_trans (neg_nonpos.mpr (Int.natCast_nonneg _)) (Int.natCast_nonneg _)
      | exact neg_le_neg (by exact_mod_cast mul32_shift_mono h12 hhi (SCALER_FRAC_SHIFT + 8))
      | exact_mod_cast mul32_shift_anti h12 hlo (SCALER_FRAC_SHIFT + 8)

theorem convert16_y_anti (c : AxisCoef) {r1 r2 : ℕ} (h12 : r1 ≤ r2)
    (hhi : c.high_scaler * (r2 - c.ctr_high) < U32)
    (hlo : c.low_scaler * (c.ctr_low - r1) < U32) :
    convert16_y c r2 ≤ convert16_y c r1 := by
  unfold convert16_y
  apply clamp16_mono
  split_ifs with h1 h1h h2h h2h2 h2 h2h3 <;>
    first
      | omega
      | exact le_refl _
      | exact le_add_of_nonneg_right (Int.natCast_nonneg _)
      | exact sub_le_self 32767 (Int.natCast_nonneg _)
      | exact le_trans (sub_le_self 32767 (Int.natCast_nonneg _))
          (le_add_of_nonneg_right (Int.natCast_nonneg _))
      | exact sub_le_sub_left
          (by exact_mod_cast mul32_shift_mono h12 hhi SCALER_FRAC_SHIFT) 32767
      | exact add_le_add_left
          (by exact_mod_cast mul32_shift_anti h12 hlo SCALER_FRAC_SHIFT) 32767

/-- Claim C1 counterexample: with the calibration of the worked scenario
applied to an axis read as Y (ctr=703, ctrDeadzone=48, min=0, max=1406,
end dead zone 0), both Y conversions strictly decrease from raw 703 to
raw 1406, so they are not monotonic non-decreasing in the raw timing. -/
theorem claim1_counterexample :
    703 ≤ 1406 ∧ convert8_y scenCoef 1406 < convert8_y scenCoef 703 ∧
    convert16_y scenCoef 1406 < convert16_y scenCoef 703 := by
  decide

/-- Claim C1 (amended): for a fixed calibration whose scaler products at
the considered raw timings stay below 2^32 (no unsigned overflow), the
8-bit and 16-bit conversions of Joystick_Read are monotonic
non-decreasing in the cached raw timing on the X axis and monotonic
non-increasing on the Y axis; irrespective of that, every result lies in
[-127,127] for the 8-bit forms and in [0,65535] for the 16-bit forms. -/
theorem claim1_amended (c : AxisCoef) (r1 r2 raw : ℕ) (h12 : r1 ≤ r2)
    (hhi : c.high_scaler * (r2 - c.ctr_high) < U32)
    (hlo : c.low_scaler * (c.ctr_low - r1) < U32) :
    (convert8_x c r1 ≤ convert8_x c r2 ∧ convert16_x c r1 ≤ convert16_x c r2 ∧
     convert8_y c r2 ≤ convert8_y c r1 ∧ convert16_y c r2 ≤ convert16_y c r1) ∧
    (-127 ≤ convert8_x c raw ∧ convert8_x c raw ≤ 127 ∧
     -127 ≤ convert8_y c raw ∧ convert8_y c raw ≤ 127 ∧
     0 ≤ convert16_x c raw ∧ convert16_x c raw ≤ 65535 ∧
     0 ≤ convert16_y c raw ∧ convert16_y c raw ≤ 65535) := by
  refine ⟨⟨convert8_x_mono c h12 hhi hlo, convert16_x_mono c h12 hhi hlo,
    convert8_y_anti c h12 hhi hlo, convert16_y_anti c h12 hhi hlo⟩,
    ?_, ?_, ?_, ?_, ?_, ?_, ?_, ?_⟩
  · exact clamp8_lb _
  · exact clamp8_ub _
  · exact clamp8_lb _
  · exact clamp8_ub _
  · exact clamp16_lb _
  · exact clamp16_ub _
  · exact clamp16_lb _
  · exact clamp16_ub _

/-- Witness for claim C1 on the scenario coefficients between raw 0 and
raw 1406, whose scaler products are far below 2^32. -/
theorem claim1_witness :
    convert8_x scenCoef 0 ≤ convert8_x scenCoef 1406 ∧
    convert16_x scenCoef 0 ≤ convert16_x scenCoef 1406 ∧
    convert8_y scenCoef 1406 ≤ convert8_y scenCoef 0 ∧
    convert16_y scenCoef 1406 ≤ convert16_y scenCoef 0 :=
  (claim1_amended scenCoef 0 1406 700 (by decide) (by decide) (by decide)).1

theorem axis_step_mask_mono {joy interval tol w bit sb nv mask lost b : ℕ}
    (h : ((axis_step joy interval tol w bit sb nv mask lost).2.1).testBit b = true) :
    mask.testBit b = true := by
  unfold axis_step at h
  by_cases hj : joy.testBit bit = true
  · rw [if_pos hj] at h
    rw [Nat.testBit_and, Bool.and_eq_true] at h
    exact h.1
  · rw [if_neg hj] at h
    exact h

theorem axis_step_own_clear {joy interval tol w bit sb nv mask lost : ℕ}
    (hj : joy.testBit bit = true)
    (hm : ((axis_step joy interval tol w bit sb nv mask lost).2.1).testBit bit = true)
    (hc : (UINT_MAX - (1 <<< bit)).testBit bit = false) : False := by
  unfold axis_step at hm
  rw [if_pos hj] at hm
  simp [Nat.testBit_and, hc] at hm

theorem axis_step_skip {joy interval tol w bit sb nv mask lost : ℕ}
    (hj : joy.testBit bit = false) :
    axis_step joy interval tol w bit sb nv mask lost = (nv, mask, lost) := by
  unfold axis_step
  rw [if_neg (by simp [hj])]

theorem axis_chain_pres (joy interval tol w nx0v ny0v nx1v ny1v mask lost : ℕ)
    (h0 : mask.testBit 0 = true → nx0v = UINT_MAX)
    (h1 : mask.testBit 1 = true → ny0v = UINT_MAX)
    (h2 : mask.testBit 2 = true → nx1v = UINT_MAX)
    (h3 : mask.testBit 3 = true → ny1v = UINT_MAX) :
    let b0 := axis_step joy interval tol w 0 1 nx0v mask lost
    let b1 := axis_step joy interval tol w 1 1 ny0v b0.2.1 b0.2.2
    let b2 := axis_step joy interval tol w 2 2 nx1v b1.2.1 b1.2.2
    let b3 := axis_step joy interval tol w 3 2 ny1v b2.2.1 b2.2.2
    (b3.2.1.testBit 0 = true → b0.1 = UINT_MAX) ∧
    (b3.2.1.testBit 1 = true → b1.1 = UINT_MAX) ∧
    (b3.2.1.testBit 2 = true → b2.1 = UINT_MAX) ∧
    (b3.2.1.testBit 3 = true → b3.1 = UINT_MAX) := by
  simp only []
  refine ⟨?_, ?_, ?_, ?_⟩
  · intro hb
    have hm0 := axis_step_mask_mono (axis_step_mask_mono (axis_step_mask_mono hb))
    by_cases j0 : joy.testBit 0 = true
    · exact (axis_step_own_clear j0 hm0 (by decide)).elim
    · have j0f : joy.testBit 0 = false := by simpa using j0
      rw [axis_step_skip j0f] at hm0 ⊢
      exact h0 hm0
  · intro hb
    have hm1 := axis_step_mask_mono (axis_step_mask_mono hb)
    by_cases j1 : joy.testBit 1 = true
    · exact (axis_step_own_clear j1 hm1 (by decide)).elim
    · have j1f : joy.testBit 1 = false := by simpa using j1
      rw [axis_step_skip j1f] at hm1 ⊢
      exact h1 (axis_step_mask_mono hm1)
  · intro hb
    have hm2 := axis_step_mask_mono hb
    by_cases j2 : joy.testBit 2 = true
    · exact (axis_step_own_clear j2 hm2 (by decide)).elim
    · have j2f : joy.testBit 2 = false := by simpa using j2
      rw [axis_step_skip j2f] at hm2 ⊢
      exact h2 (axis_step_mask_mono (axis_step_mask_mono hm2))
  · intro hb
    by_cases j3 : joy.testBit 3 = true
    · exact (axis_step_own_clear j3 hb (by decide)).elim
    · have j3f : joy.testBit 3 = false := by simpa using j3
      rw [axis_step_skip j3f] at hb ⊢
      exact h3 (axis_step_mask_mono (axis_step_mask_mono (axis_step_mask_mono hb)))

theorem read_step_pres (tol : ℕ) (s : Sample) (l : LoopSt)
    (h0 : l.mask.testBit 0 = true → l.nx0 = UINT_MAX)
    (h1 : l.mask.testBit 1 = true → l.ny0 = UINT_MAX)
    (h2 : l.mask.testBit 2 = true → l.nx1 = UINT_MAX)
    (h3 : l.mask.testBit 3 = true → l.ny1 = UINT_MAX) :
    ((read_step tol s l).mask.testBit 0 = true → (read_step tol s l).nx0 = UINT_MAX) ∧
    ((read_step tol s l).mask.testBit 1 = true → (read_step tol s l).ny0 = UINT_MAX) ∧
    ((read_step tol s l).mask.testBit 2 = true → (read_step tol s l).nx1 = UINT_MAX) ∧
    ((read_step tol s l).mask.testBit 3 = true → (read_step tol s l).ny1 = UINT_MAX) :=
  axis_chain_pres _ _ tol _ l.nx0 l.ny0 l.nx1 l.ny1 l.mask l.sticks_lost h0 h1 h2 h3

theorem read_loop_pres (maxw tol : ℕ) (trace : List Sample) (l : LoopSt)
    (h0 : l.mask.testBit 0 = true → l.nx0 = UINT_MAX)
    (h1 : l.mask.testBit 1 = true → l.ny0 = UINT_MAX)
    (h2 : l.mask.testBit 2 = true → l.nx1 = UINT_MAX)
    (h3 : l.mask.testBit 3 = true → l.ny1 = UINT_MAX) :
    ((read_loop maxw tol trace l).mask.testBit 0 = true →
       (read_loop maxw tol trace l).nx0 = UINT_MAX) ∧
    ((read_loop maxw tol trace l).mask.testBit 1 = true →
       (read_loop maxw tol trace l).ny0 = UINT_MAX) ∧
    ((read_loop maxw tol trace l).mask.testBit 2 = true →
       (read_loop maxw tol trace l).nx1 = UINT_MAX) ∧
    ((read_loop maxw tol trace l).mask.testBit 3 = true →
       (read_loop maxw tol trace l).ny1 = UINT_MAX) := by
  induction trace generalizing l with
  | nil => exact ⟨h0, h1, h2, h3⟩
  | cons s rest ih =>
    unfold read_loop
    by_cases hc : l.mask ≠ 0 ∧ l.wait < maxw
    · rw [if_pos hc]
      obtain ⟨g0, g1, g2, g3⟩ := read_step_pres tol s l h0 h1 h2 h3
      exact ih (read_step tol s l) g0 g1 g2 g3
    · rw [if_neg hc]
      exact ⟨h0, h1, h2, h3⟩

/-- Claim C9: for every acquisition cycle over any hardware trace, an axis
with no accepted reading (sentinel UINT_MAX - covering axes that never
completed and axes whose reading was discarded for an out-of-tolerance
interval) keeps its cached value exactly; every axis bit still set in the
returned timed-out mask has no accepted reading, hence also keeps its
cached value.  read_joystick has no error result, so no error can be
raised.  By contraposition only axes whose completion was accepted within
tolerance are overwritten. -/
theorem claim9_theorem (st : JoyState) (mask start_time : ℕ) (trace : List Sample) :
    ((loopResult st mask start_time trace).nx0 = UINT_MAX →
       (read_joystick st mask start_time trace).2.2.x_axis0 = st.x_axis0) ∧
    ((loopResult st mask start_time trace).ny0 = UINT_MAX →
       (read_joystick st mask start_time trace).2.2.y_axis0 = st.y_axis0) ∧
    ((loopResult st mask start_time trace).nx1 = UINT_MAX →
       (read_joystick st mask start_time trace).2.2.x_axis1 = st.x_axis1) ∧
    ((loopResult st mask start_time trace).ny1 = UINT_MAX →
       (read_joystick st mask start_time trace).2.2.y_axis1 = st.y_axis1) ∧
    ((read_joystick st mask start_time trace).1.testBit 0 = true →
       (loopResult st mask start_time trace).nx0 = UINT_MAX) ∧
    ((read_joystick st mask start_time trace).1.testBit 1 = true →
       (loopResult st mask start_time trace).ny0 = UINT_MAX) ∧
    ((read_joystick st mask start_time trace).1.testBit 2 = true →
       (loopResult st mask start_time trace).nx1 = UINT_MAX) ∧
    ((read_joystick st mask start_time trace).1.testBit 3 = true →
       (loopResult st mask start_time trace).ny1 = UINT_MAX) := by
  obtain ⟨i0, i1, i2, i3⟩ := read_loop_pres st.max_wait st.tolerance trace
    (initLoop mask start_time) (fun _ => rfl) (fun _ => rfl) (fun _ => rfl)
    (fun _ => rfl)
  refine ⟨?_, ?_, ?_, ?_, i0, i1, i2, i3⟩
  · intro h
    simp only [read_joystick]
    rw [h]
    simp
  · intro h
    simp only [read_joystick]
    rw [h]
    simp
  · intro h
    simp only [read_joystick]
    rw [h]
    simp
  · intro h
    simp only [read_joystick]
    rw [h]
    simp

/-- Witness for claim C9: a cycle on all four axes whose single sample
shows every axis still charging leaves the cached X value of stick 0
untouched. -/
theorem claim9_witness :
    (read_joystick initState 15 10000 [{ port := 255, time := 9990 }]).2.2.x_axis0
      = initState.x_axis0 :=
  (claim9_theorem initState 15 10000 [{ port := 255, time := 9990 }]).1 (by decide)
